import Mathlib

/-!
Verification of the sample catalog, resolver and navigator of
`src/app.py` (MisleadingChartQA dataset viewer).

The Python program is embedded shallowly:

* the filesystem tree under the figures root is a list of `FsEntry`
  (directory components, final name, file flag), mirroring what
  `Path.rglob` enumerates;
* the rest of the filesystem plus the external libraries (`os.path.exists`,
  `pandas.read_csv`, `json.load`, `PIL.Image.open`) are the fields of an
  `Env` record: the code under test only observes them through these calls;
* a Python exception escaping a handler is `Except.error`;
* `sorted` on strings is an insertion sort by code-point order; since the
  order is antisymmetric the sorted list is unique, so any correct sort
  models Python faithfully.
-/

/-! ## Python string and path primitives -/

/-- `str.lower` restricted to ASCII, as applied to extension strings. -/
def pyLower (s : String) : String := String.mk (s.toList.map Char.toLower)

/-- Helper for `str.rfind`: index of the last occurrence of a dot,
`-1` when there is none (`best` is the best index seen so far). -/
def lastDotAux : List Char → Int → Int → Int
  | [], _, best => best
  | c :: cs, i, best => lastDotAux cs (i + 1) (if c = '.' then i else best)

/-- Python `name.rfind('.')`. -/
def pyRFindDot (s : String) : Int := lastDotAux s.toList 0 (-1)

/-- `pathlib.PurePath.suffix`: the substring from the last dot onwards,
provided that dot is neither leading nor trailing; `""` otherwise. -/
def pySuffix (s : String) : String :=
  let i := pyRFindDot s
  if 0 < i ∧ i < (s.length : Int) - 1 then String.mk (s.toList.drop i.toNat)
  else ""

/-- `PurePath.with_suffix('')` applied to a file name: drops the suffix. -/
def withEmptySuffix (s : String) : String :=
  String.mk (s.toList.take (s.length - (pySuffix s).length))

/-- `os.path.join` for a relative second component (the only case the
program produces). -/
def os_path_join (a b : String) : String := a ++ "/" ++ b

def BASE_DIR : String := "."
def FIGURES_DIR : String := os_path_join BASE_DIR "figures"
def DATA_DIR : String := os_path_join BASE_DIR "data"
def QA_DIR : String := os_path_join BASE_DIR "qa"
def SCREENSHOTS_DIR : String :=
  os_path_join (os_path_join BASE_DIR "screenshots") "non-misleading"

/-! ## Python `sorted` on strings

Python compares strings lexicographically by code point.  `lexLe` is that
order as a boolean; `pySorted` is an insertion sort by it. -/

/-- Code-point lexicographic `≤` on character lists. -/
def lexLe : List Char → List Char → Bool
  | [], _ => true
  | _ :: _, [] => false
  | a :: as, b :: bs => if a < b then true else if b < a then false else lexLe as bs

/-- Python string `≤`. -/
def strLeB (a b : String) : Bool := lexLe a.toList b.toList

/-- Insert into a sorted list, keeping it sorted. -/
def insertSorted (x : String) : List String → List String
  | [] => [x]
  | y :: ys => if strLeB x y then x :: y :: ys else y :: insertSorted x ys

/-- Python `sorted` for lists of strings. -/
def pySorted : List String → List String
  | [] => []
  | x :: xs => insertSorted x (pySorted xs)

/-! ## Sample catalog (`get_all_samples`, src/app.py lines 15-29) -/

/-- One entry yielded by `Path(FIGURES_DIR).rglob('*')`: its directory
components relative to the figures root, its final name, and whether it is
a regular file. -/
structure FsEntry where
  dirs : List String
  name : String
  is_file : Bool
deriving Repr, DecidableEq

/-- The literal list `['.jpg', '.jpeg', '.png']` of the membership test. -/
def imageExts : List String := [".jpg", ".jpeg", ".png"]

/-- The filter of the scan loop:
`file_path.is_file() and file_path.suffix.lower() in ['.jpg','.jpeg','.png']`. -/
def isImageEntry (e : FsEntry) : Bool :=
  e.is_file && imageExts.contains (pyLower (pySuffix e.name))

/-- `str(rel_path.with_suffix(''))`: the sample identifier of an entry. -/
def sampleIdOf (e : FsEntry) : String :=
  String.intercalate "/" (e.dirs ++ [withEmptySuffix e.name])

/-- The accumulation loop of `get_all_samples`: one appended identifier per
entry passing the filter. -/
def collectSamples : List FsEntry → List String
  | [] => []
  | e :: rest =>
    if isImageEntry e then sampleIdOf e :: collectSamples rest
    else collectSamples rest

/-- `get_all_samples()`: scan the figures tree, keep image files, strip the
extension, and return `sorted(samples)`. -/
def get_all_samples (tree : List FsEntry) : List String :=
  pySorted (collectSamples tree)

/-! ## Sample resolver (`get_sample_data`, src/app.py lines 31-82) -/

/-- A pandas `DataFrame` as observed by this program: column names and the
rows below them.  `pd.DataFrame()` is `⟨[], []⟩`;
`pd.DataFrame({"Info": ["No CSV file found"]})` is a one-column one-row
table. -/
structure DataFrame where
  columns : List String
  rows : List (List String)
deriving Repr, DecidableEq

/-- The value tree produced by `json.load`, and the dict literals the
program builds itself. -/
inductive Json where
  | null : Json
  | bool : Bool → Json
  | num : Int → Json
  | str : String → Json
  | arr : List Json → Json
  | obj : List (String × Json) → Json

/-- An in-memory decoded image (`PIL.Image.Image`); its contents are
irrelevant to the program, only identity matters. -/
structure Img where
  tag : Nat
deriving Repr, DecidableEq

/-- The external world as the program observes it: `os.path.exists`,
`pandas.read_csv`, `json.load` (both returning `Except.error` on a raised
parse exception, carrying `str(e)`), and `PIL.Image.open`
(`Except.error` when the file cannot be decoded). -/
structure Env where
  path_exists : String → Bool
  read_csv : String → Except String DataFrame
  json_load : String → Except String Json
  image_open : String → Except String Img

/-- The 4-tuple returned by `get_sample_data`. -/
structure SampleData where
  misleading_path : Option String
  original_path : Option String
  df : DataFrame
  json_data : Json

/-- A `for p in candidates: if os.path.exists(p): found = p; break` loop:
the first existing candidate path, `none` when none exists. -/
def firstExisting (env : Env) : List String → Option String
  | [] => none
  | p :: ps => if env.path_exists p then some p else firstExisting env ps

/-- `get_sample_data(sample_id)` (src/app.py lines 31-82). -/
def get_sample_data (env : Env) (sample_id : String) : SampleData :=
  let misleading_path := firstExisting env
    ([".jpeg", ".jpg", ".png"].map (fun ext => os_path_join FIGURES_DIR (sample_id ++ ext)))
  let possible_paths := [
    os_path_join SCREENSHOTS_DIR (sample_id ++ ".jpg"),
    os_path_join SCREENSHOTS_DIR (sample_id ++ ".jpeg"),
    os_path_join SCREENSHOTS_DIR (sample_id ++ ".png"),
    os_path_join (os_path_join SCREENSHOTS_DIR "code_original") (sample_id ++ ".jpg"),
    os_path_join (os_path_join SCREENSHOTS_DIR "code_original") (sample_id ++ ".jpeg"),
    os_path_join (os_path_join SCREENSHOTS_DIR "code_original") (sample_id ++ ".png")]
  let original_path := firstExisting env possible_paths
  let csv_path := os_path_join DATA_DIR (sample_id ++ ".csv")
  let df :=
    if env.path_exists csv_path then
      match env.read_csv csv_path with
      | Except.ok d => d
      | Except.error e => ⟨["Error"], [["Could not read CSV: " ++ e]]⟩
    else ⟨["Info"], [["No CSV file found"]]⟩
  let json_path := os_path_join QA_DIR (sample_id ++ ".json")
  let json_data :=
    if env.path_exists json_path then
      match env.json_load json_path with
      | Except.ok j => j
      | Except.error e => Json.obj [("Error", Json.str ("Could not read JSON: " ++ e))]
    else Json.obj [("Info", Json.str "No JSON file found")]
  ⟨misleading_path, original_path, df, json_data⟩

/-! ## Navigator (`load_sample`, `on_prev`, `on_next`, `on_select`,
src/app.py lines 132-158) -/

/-- The 7-tuple `load_sample` returns to the presentation layer. -/
structure LoadResult where
  misleading_img : Option Img
  original_img : Option Img
  df : DataFrame
  json_data : Json
  sample_id : Option String
  idx : Nat
  count_str : String

/-- `idx = max(0, min(index, len(samples) - 1))`. -/
def clampIndex (index : Int) (n : Nat) : Nat :=
  (max 0 (min index ((n : Int) - 1))).toNat

/-- `Image.open(path) if path else None`: a raised decode exception
aborts the whole navigation event. -/
def openOpt (env : Env) : Option String → Except String (Option Img)
  | some p => (env.image_open p).map some
  | none => Except.ok none

/-- `load_sample(index)` (src/app.py lines 132-147).  `Except.error e`
models the event raising exception `e` out of the handler. -/
def load_sample (env : Env) (samples : List String) (index : Int) :
    Except String LoadResult :=
  if samples.isEmpty then
    Except.ok ⟨none, none, ⟨[], []⟩, Json.obj [], none, 0, "0/0"⟩
  else
    let idx := clampIndex index samples.length
    let sample_id := samples.getD idx ""
    let sd := get_sample_data env sample_id
    match openOpt env sd.misleading_path with
    | Except.error e => Except.error e
    | Except.ok misleading_img =>
      match openOpt env sd.original_path with
      | Except.error e => Except.error e
      | Except.ok original_img =>
        Except.ok ⟨misleading_img, original_img, sd.df, sd.json_data,
          some sample_id, idx,
          toString (idx + 1) ++ " / " ++ toString samples.length⟩

/-- `on_prev(idx)`. -/
def on_prev (env : Env) (samples : List String) (idx : Int) :
    Except String LoadResult :=
  load_sample env samples (idx - 1)

/-- `on_next(idx)`. -/
def on_next (env : Env) (samples : List String) (idx : Int) :
    Except String LoadResult :=
  load_sample env samples (idx + 1)

/-- `on_select(val)`: jump to `samples.index(val)` when present, else to 0. -/
def on_select (env : Env) (samples : List String) (val : String) :
    Except String LoadResult :=
  if val ∈ samples then load_sample env samples (samples.indexOf val : Int)
  else load_sample env samples 0

/-! ## Concrete fixtures used by witnesses and counterexamples -/

/-- Figures tree where the base name `foo` carries two image extensions. -/
def dupExtTree : List FsEntry := [⟨[], "foo.jpg", true⟩, ⟨[], "foo.png", true⟩]

/-- Figures tree with colliding extensions under a subdirectory plus an
unrelated text file and a subdirectory entry. -/
def mixedTree : List FsEntry :=
  [⟨["a"], "x.jpeg", true⟩, ⟨["a"], "x.png", true⟩,
   ⟨["a"], "notes.txt", true⟩, ⟨["a"], "sub", false⟩]

/-- Environment in which no path exists at all. -/
def envEmptyFs : Env :=
  ⟨fun _ => false, fun _ => Except.error "missing", fun _ => Except.error "missing",
   fun _ => Except.error "missing"⟩

/-- Environment in which every path exists, both parsers raise `boom`, and
images decode fine. -/
def envParseFail : Env :=
  ⟨fun _ => true, fun _ => Except.error "boom", fun _ => Except.error "boom",
   fun _ => Except.ok ⟨7⟩⟩

/-- Environment in which every path exists and every located image fails to
decode. -/
def envUndecodable : Env :=
  ⟨fun _ => true, fun _ => Except.ok ⟨[], []⟩, fun _ => Except.ok (Json.obj []),
   fun _ => Except.error "cannot identify image file"⟩

/-- The result of loading index 0 of catalog `["a", "b"]` in `envEmptyFs`. -/
def resA : LoadResult :=
  ⟨none, none, ⟨["Info"], [["No CSV file found"]]⟩,
   Json.obj [("Info", Json.str "No JSON file found")], some "a", 0, "1 / 2"⟩

/-- The result of loading index 1 of catalog `["a", "b"]` in `envEmptyFs`. -/
def resB : LoadResult :=
  ⟨none, none, ⟨["Info"], [["No CSV file found"]]⟩,
   Json.obj [("Info", Json.str "No JSON file found")], some "b", 1, "2 / 2"⟩

/-! ## Helper lemmas: the string order -/

def StrLe (a b : String) : Prop := strLeB a b = true

theorem lexLe_total : ∀ a b : List Char, lexLe a b = true ∨ lexLe b a = true
  | [], _ => Or.inl rfl
  | _ :: _, [] => Or.inr rfl
  | a :: as, b :: bs => by
    by_cases hab : a < b
    · left; simp [lexLe, hab]
    · by_cases hba : b < a
      · right; simp [lexLe, hba]
      · have hEq : a = b := le_antisymm (not_lt.mp hba) (not_lt.mp hab)
        subst hEq
        cases lexLe_total as bs with
        | inl h => left; simp [lexLe, h]
        | inr h => right; simp [lexLe, h]

theorem lexLe_trans : ∀ {a b c : List Char},
    lexLe a b = true → lexLe b c = true → lexLe a c = true
  | [], _, _, _, _ => rfl
  | _ :: _, _ :: _, [], _, hbc => by simp [lexLe] at hbc
  | _ :: _, [], _ :: _, hab, _ => by simp [lexLe] at hab
  | a :: as, b :: bs, c :: cs, hab, hbc => by
    simp only [lexLe] at hab hbc ⊢
    rcases lt_trichotomy a b with h1 | h1 | h1
    · rcases lt_trichotomy b c with h2 | h2 | h2
      · simp [lt_trans h1 h2]
      · subst h2; simp [h1]
      · rw [if_neg (lt_asymm h2), if_pos h2] at hbc
        exact absurd hbc (by simp)
    · subst h1
      rcases lt_trichotomy a c with h2 | h2 | h2
      · simp [h2]
      · subst h2
        rw [if_neg (lt_irrefl a)] at hab hbc ⊢
        rw [if_neg (lt_irrefl a)] at hab hbc ⊢
        exact lexLe_trans hab hbc
      · rw [if_neg (lt_asymm h2), if_pos h2] at hbc
        exact absurd hbc (by simp)
    · rw [if_neg (lt_asymm h1), if_pos h1] at hab
      exact absurd hab (by simp)

theorem strLe_total (a b : String) : StrLe a b ∨ StrLe b a := lexLe_total a.toList b.toList

theorem strLe_trans {a b c : String} (h1 : StrLe a b) (h2 : StrLe b c) : StrLe a c :=
  lexLe_trans h1 h2

/-! ## Helper lemmas: the sort -/

theorem perm_insertSorted (x : String) : ∀ l : List String, List.Perm (insertSorted x l) (x :: l)
  | [] => List.Perm.refl _
  | y :: ys => by
    by_cases h : strLeB x y = true
    · rw [insertSorted, if_pos h]
    · rw [insertSorted, if_neg h]
      exact ((perm_insertSorted x ys).cons y).trans (List.Perm.swap x y ys)

theorem perm_pySorted : ∀ l : List String, List.Perm (pySorted l) l
  | [] => List.Perm.refl _
  | x :: xs => ((perm_insertSorted x (pySorted xs)).trans ((perm_pySorted xs).cons x))

theorem pairwise_insertSorted (x : String) {l : List String}
    (hl : l.Pairwise StrLe) : (insertSorted x l).Pairwise StrLe := by
  induction l with
  | nil => simp [insertSorted, StrLe]
  | cons y ys ih =>
    rcases List.pairwise_cons.mp hl with ⟨hy, hys⟩
    by_cases hxy : strLeB x y = true
    · rw [insertSorted, if_pos hxy]
      refine List.pairwise_cons.mpr ⟨?_, hl⟩
      intro z hz
      rcases List.mem_cons.mp hz with rfl | hz
      · exact hxy
      · exact strLe_trans hxy (hy z hz)
    · rw [insertSorted, if_neg hxy]
      refine List.pairwise_cons.mpr ⟨?_, ih hys⟩
      intro z hz
      rcases List.mem_cons.mp ((perm_insertSorted x ys).mem_iff.mp hz) with rfl | hz2
      · exact (strLe_total z y).resolve_left hxy
      · exact hy z hz2

theorem pairwise_pySorted : ∀ l : List String, (pySorted l).Pairwise StrLe
  | [] => List.Pairwise.nil
  | x :: xs => pairwise_insertSorted x (pairwise_pySorted xs)

/-! ## Helper lemmas: the catalog -/

theorem count_collectSamples (s : String) : ∀ tree : List FsEntry,
    (collectSamples tree).count s =
      tree.countP (fun e => isImageEntry e && (sampleIdOf e == s))
  | [] => rfl
  | e :: rest => by
    by_cases h : isImageEntry e = true
    · rw [collectSamples, if_pos h, List.count_cons, List.countP_cons,
        count_collectSamples s rest]
      simp [h, List.count]
    · rw [collectSamples, if_neg h, List.countP_cons,
        count_collectSamples s rest]
      simp [Bool.eq_false_iff.mpr h]

theorem mem_collectSamples {s : String} : ∀ {tree : List FsEntry},
    s ∈ collectSamples tree ↔
      ∃ e, e ∈ tree ∧ isImageEntry e = true ∧ sampleIdOf e = s
  | [] => by simp [collectSamples]
  | e :: rest => by
    by_cases h : isImageEntry e = true
    · rw [collectSamples, if_pos h]
      simp only [List.mem_cons, mem_collectSamples]
      constructor
      · rintro (rfl | ⟨f, hf, hfi, rfl⟩)
        · exact ⟨e, Or.inl rfl, h, rfl⟩
        · exact ⟨f, Or.inr hf, hfi, rfl⟩
      · rintro ⟨f, (rfl | hf), hfi, rfl⟩
        · exact Or.inl rfl
        · exact Or.inr ⟨f, hf, hfi, rfl⟩
    · rw [collectSamples, if_neg h]
      rw [mem_collectSamples]
      constructor
      · rintro ⟨f, hf, hfi, rfl⟩
        exact ⟨f, List.mem_cons_of_mem e hf, hfi, rfl⟩
      · rintro ⟨f, hf, hfi, rfl⟩
        rcases List.mem_cons.mp hf with rfl | hf2
        · exact absurd hfi h
        · exact ⟨f, hf2, hfi, rfl⟩

theorem count_get_all_samples (tree : List FsEntry) (s : String) :
    (get_all_samples tree).count s =
      tree.countP (fun e => isImageEntry e && (sampleIdOf e == s)) := by
  rw [get_all_samples, (perm_pySorted (collectSamples tree)).count_eq,
    count_collectSamples]

/-! ## Helper lemmas: index clamping -/

theorem clampIndex_lt {n : Nat} (index : Int) (hn : 0 < n) : clampIndex index n < n := by
  simp only [clampIndex, Int.max_def, Int.min_def]
  split <;> split <;> omega

theorem clampIndex_coe {k n : Nat} (h : k < n) : clampIndex (k : Int) n = k := by
  simp only [clampIndex, Int.max_def, Int.min_def]
  split <;> split <;> omega

/-! ## Helper lemmas: navigation -/

theorem openOpt_total {env : Env} (himg : ∀ p, ∃ i, env.image_open p = Except.ok i) :
    ∀ op : Option String, ∃ v, openOpt env op = Except.ok v
  | none => ⟨none, rfl⟩
  | some p => by
    obtain ⟨i, hi⟩ := himg p
    exact ⟨some i, by simp [openOpt, hi, Except.map]⟩

theorem load_sample_ok {env : Env} {samples : List String} {index : Int} {r : LoadResult}
    (h : samples ≠ []) (hr : load_sample env samples index = Except.ok r) :
    r.idx = clampIndex index samples.length
    ∧ r.sample_id = some (samples.getD (clampIndex index samples.length) "")
    ∧ r.df = (get_sample_data env (samples.getD (clampIndex index samples.length) "")).df
    ∧ r.json_data = (get_sample_data env (samples.getD (clampIndex index samples.length) "")).json_data
    ∧ r.count_str = toString (clampIndex index samples.length + 1) ++ " / " ++ toString samples.length := by
  unfold load_sample at hr
  rw [if_neg (by simp [List.isEmpty_iff, h])] at hr
  dsimp only at hr
  cases h1 : openOpt env (get_sample_data env (samples.getD (clampIndex index samples.length) "")).misleading_path with
  | error e => rw [h1] at hr; exact absurd hr (by simp)
  | ok mi =>
    rw [h1] at hr
    cases h2 : openOpt env (get_sample_data env (samples.getD (clampIndex index samples.length) "")).original_path with
    | error e => rw [h2] at hr; exact absurd hr (by simp)
    | ok oi =>
      rw [h2] at hr
      cases hr
      exact ⟨rfl, rfl, rfl, rfl, rfl⟩

theorem load_sample_total {env : Env} (himg : ∀ p, ∃ i, env.image_open p = Except.ok i)
    (samples : List String) (index : Int) :
    ∃ r, load_sample env samples index = Except.ok r := by
  cases hls : load_sample env samples index with
  | ok r => exact ⟨r, rfl⟩
  | error e =>
    exfalso
    unfold load_sample at hls
    by_cases h : samples.isEmpty = true
    · rw [if_pos h] at hls
      exact Except.noConfusion hls
    · rw [if_neg h] at hls
      dsimp only at hls
      obtain ⟨mi, hmi⟩ := openOpt_total himg
        (get_sample_data env (samples.getD (clampIndex index samples.length) "")).misleading_path
      obtain ⟨oi, hoi⟩ := openOpt_total himg
        (get_sample_data env (samples.getD (clampIndex index samples.length) "")).original_path
      rw [hmi] at hls
      dsimp only at hls
      rw [hoi] at hls
      dsimp only at hls
      exact Except.noConfusion hls

theorem firstExisting_eq_find (env : Env) : ∀ l : List String,
    firstExisting env l = l.find? env.path_exists
  | [] => rfl
  | p :: ps => by
    by_cases h : env.path_exists p = true
    · simp [firstExisting, h, List.find?_cons_of_pos]
    · rw [firstExisting, if_neg (by simp [h]), firstExisting_eq_find env ps,
        List.find?_cons_of_neg]
      simp [h]

/-- Claim C6: the primary image is located by trying `.jpeg`, `.jpg`, `.png`
under the figures root in that order, and the companion screenshot by trying
the six candidate paths in the stated order; in both cases the first
existing path wins and the result is absent when none exists
(`List.find?` is exactly first-match-or-none). -/
theorem c6_lookup_candidate_order (env : Env) (sample_id : String) :
    (get_sample_data env sample_id).misleading_path =
      [os_path_join FIGURES_DIR (sample_id ++ ".jpeg"),
       os_path_join FIGURES_DIR (sample_id ++ ".jpg"),
       os_path_join FIGURES_DIR (sample_id ++ ".png")].find? env.path_exists
    ∧ (get_sample_data env sample_id).original_path =
      [os_path_join SCREENSHOTS_DIR (sample_id ++ ".jpg"),
       os_path_join SCREENSHOTS_DIR (sample_id ++ ".jpeg"),
       os_path_join SCREENSHOTS_DIR (sample_id ++ ".png"),
       os_path_join (os_path_join SCREENSHOTS_DIR "code_original") (sample_id ++ ".jpg"),
       os_path_join (os_path_join SCREENSHOTS_DIR "code_original") (sample_id ++ ".jpeg"),
       os_path_join (os_path_join SCREENSHOTS_DIR "code_original") (sample_id ++ ".png")].find?
        env.path_exists
    ∧ ((get_sample_data env sample_id).misleading_path = none ↔
        ∀ p ∈ [os_path_join FIGURES_DIR (sample_id ++ ".jpeg"),
               os_path_join FIGURES_DIR (sample_id ++ ".jpg"),
               os_path_join FIGURES_DIR (sample_id ++ ".png")],
          env.path_exists p = false)
    ∧ ((get_sample_data env sample_id).original_path = none ↔
        ∀ p ∈ [os_path_join SCREENSHOTS_DIR (sample_id ++ ".jpg"),
               os_path_join SCREENSHOTS_DIR (sample_id ++ ".jpeg"),
               os_path_join SCREENSHOTS_DIR (sample_id ++ ".png"),
               os_path_join (os_path_join SCREENSHOTS_DIR "code_original") (sample_id ++ ".jpg"),
               os_path_join (os_path_join SCREENSHOTS_DIR "code_original") (sample_id ++ ".jpeg"),
               os_path_join (os_path_join SCREENSHOTS_DIR "code_original") (sample_id ++ ".png")],
          env.path_exists p = false) := by
  have h1 : (get_sample_data env sample_id).misleading_path =
      [os_path_join FIGURES_DIR (sample_id ++ ".jpeg"),
       os_path_join FIGURES_DIR (sample_id ++ ".jpg"),
       os_path_join FIGURES_DIR (sample_id ++ ".png")].find? env.path_exists := by
    unfold get_sample_data
    dsimp only
    rw [firstExisting_eq_find]
    rfl
  have h2 : (get_sample_data env sample_id).original_path =
      [os_path_join SCREENSHOTS_DIR (sample_id ++ ".jpg"),
       os_path_join SCREENSHOTS_DIR (sample_id ++ ".jpeg"),
       os_path_join SCREENSHOTS_DIR (sample_id ++ ".png"),
       os_path_join (os_path_join SCREENSHOTS_DIR "code_original") (sample_id ++ ".jpg"),
       os_path_join (os_path_join SCREENSHOTS_DIR "code_original") (sample_id ++ ".jpeg"),
       os_path_join (os_path_join SCREENSHOTS_DIR "code_original") (sample_id ++ ".png")].find?
        env.path_exists := by
    unfold get_sample_data
    dsimp only
    rw [firstExisting_eq_find]
  refine ⟨h1, h2, ?_, ?_⟩
  · rw [h1, List.find?_eq_none]
    constructor
    · intro h p hp
      simp [h p hp]
    · intro h p hp
      simp [h p hp]
  · rw [h2, List.find?_eq_none]
    constructor
    · intro h p hp
      simp [h p hp]
    · intro h p hp
      simp [h p hp]

/-- Claim C7: resolution never raises on companion files: a missing CSV
yields the one-row Info placeholder table, an unparsable CSV the one-row
Error placeholder embedding the parse failure text, a missing JSON the Info
placeholder mapping, and an unparsable JSON the Error placeholder mapping
embedding the parse failure text.  (`get_sample_data` is a total function,
so no exception can escape it.) -/
theorem c7_companion_placeholders (env : Env) (sample_id : String) :
    (env.path_exists (os_path_join DATA_DIR (sample_id ++ ".csv")) = false →
      (get_sample_data env sample_id).df = ⟨["Info"], [["No CSV file found"]]⟩)
    ∧ (∀ e, env.path_exists (os_path_join DATA_DIR (sample_id ++ ".csv")) = true →
        env.read_csv (os_path_join DATA_DIR (sample_id ++ ".csv")) = Except.error e →
        (get_sample_data env sample_id).df = ⟨["Error"], [["Could not read CSV: " ++ e]]⟩)
    ∧ (env.path_exists (os_path_join QA_DIR (sample_id ++ ".json")) = false →
      (get_sample_data env sample_id).json_data = Json.obj [("Info", Json.str "No JSON file found")])
    ∧ (∀ e, env.path_exists (os_path_join QA_DIR (sample_id ++ ".json")) = true →
        env.json_load (os_path_join QA_DIR (sample_id ++ ".json")) = Except.error e →
        (get_sample_data env sample_id).json_data =
          Json.obj [("Error", Json.str ("Could not read JSON: " ++ e))]) := by
  refine ⟨fun h => ?_, fun e h1 h2 => ?_, fun h => ?_, fun e h1 h2 => ?_⟩ <;>
    simp [get_sample_data, *]

/-- Witness for C7 at concrete environments: `envEmptyFs` has no companion
files, `envParseFail` has files whose parsers raise `boom`. -/
theorem c7_witness :
    (get_sample_data envEmptyFs "s").df = ⟨["Info"], [["No CSV file found"]]⟩
    ∧ (get_sample_data envParseFail "s").df = ⟨["Error"], [["Could not read CSV: boom"]]⟩
    ∧ (get_sample_data envEmptyFs "s").json_data = Json.obj [("Info", Json.str "No JSON file found")]
    ∧ (get_sample_data envParseFail "s").json_data =
        Json.obj [("Error", Json.str "Could not read JSON: boom")] :=
  ⟨(c7_companion_placeholders envEmptyFs "s").1 rfl,
   (c7_companion_placeholders envParseFail "s").2.1 "boom" rfl rfl,
   (c7_companion_placeholders envEmptyFs "s").2.2.1 rfl,
   (c7_companion_placeholders envParseFail "s").2.2.2 "boom" rfl rfl⟩

/-- Claim C2, counterexample: in `envUndecodable` the primary image path of
sample `a` is located but `Image.open` raises; `load_sample` propagates the
exception (models the event failing) instead of returning a placeholder
tuple, so the claim as stated is false on the code. -/
theorem c2_counterexample :
    load_sample envUndecodable ["a"] 0 = Except.error "cannot identify image file" := rfl

/-- Claim C2 (amended): missing files and unparsable companion CSV or JSON
never abort a navigation event (if every located image decodes, every event
returns a defined tuple), but a located-but-undecodable primary image is not
turned into a placeholder: `load_sample` propagates the decode exception. -/
theorem c2_decode_failure_propagates (env : Env) (samples : List String) (index : Int) :
    ((∀ p, ∃ i, env.image_open p = Except.ok i) →
      ∃ r, load_sample env samples index = Except.ok r)
    ∧ (∀ p e, samples ≠ [] →
        (get_sample_data env
          (samples.getD (clampIndex index samples.length) "")).misleading_path = some p →
        env.image_open p = Except.error e →
        load_sample env samples index = Except.error e) := by
  constructor
  · exact fun himg => load_sample_total himg samples index
  · intro p e hne hmp hop
    unfold load_sample
    rw [if_neg (by simp [List.isEmpty_iff, hne])]
    dsimp only
    rw [hmp]
    simp only [openOpt]
    rw [hop]
    rfl

/-- Witness for C2 (amended): in `envParseFail` every image decodes and
navigation returns a tuple; in `envUndecodable` the located primary image of
sample `a` fails to decode and the exception text comes back. -/
theorem c2_witness :
    (∃ r, load_sample envParseFail ["a"] 0 = Except.ok r)
    ∧ load_sample envUndecodable ["a"] 0 = Except.error "cannot identify image file" :=
  ⟨(c2_decode_failure_propagates envParseFail ["a"] 0).1 (fun _ => ⟨⟨7⟩, rfl⟩),
   (c2_decode_failure_propagates envUndecodable ["a"] 0).2
     (os_path_join FIGURES_DIR ("a" ++ ".jpeg")) "cannot identify image file"
     (List.cons_ne_nil "a" []) rfl rfl⟩

/-- Claim C3: on a non-empty catalog every navigation result position is the
clamp of the target into `[0, N-1]`: `previous` at 0 stays at 0, `next` at
`N-1` stays at `N-1`, and any requested index is silently clamped
(`load_sample` is total in the index, no index error exists). -/
theorem c3_navigation_clamps (env : Env) (samples : List String) (h : samples ≠ []) :
    (∀ (index : Int) (r : LoadResult), load_sample env samples index = Except.ok r →
        (r.idx : Int) = max 0 (min index ((samples.length : Int) - 1)))
    ∧ (∀ r : LoadResult, on_prev env samples 0 = Except.ok r → r.idx = 0)
    ∧ (∀ r : LoadResult, on_next env samples ((samples.length : Int) - 1) = Except.ok r →
        r.idx = samples.length - 1) := by
  have hpos : 0 < samples.length := List.length_pos.mpr h
  have key : ∀ (index : Int) (r : LoadResult), load_sample env samples index = Except.ok r →
      r.idx = clampIndex index samples.length := fun index r hr => (load_sample_ok h hr).1
  refine ⟨fun index r hr => ?_, fun r hr => ?_, fun r hr => ?_⟩
  · rw [key index r hr]
    simp only [clampIndex, Int.max_def, Int.min_def]
    split <;> split <;> omega
  · unfold on_prev at hr
    rw [key (0 - 1) r hr]
    simp only [clampIndex, Int.max_def, Int.min_def]
    split <;> split <;> omega
  · unfold on_next at hr
    rw [key ((samples.length : Int) - 1 + 1) r hr]
    simp only [clampIndex, Int.max_def, Int.min_def]
    split <;> split <;> omega

/-- Witness for C3 on the catalog `["a", "b"]` in `envEmptyFs`: index 99 is
clamped to 1, `previous` at 0 returns 0, `next` at 1 returns 1. -/
theorem c3_witness :
    ((resB.idx : Int) = max 0 (min 99 (((["a", "b"] : List String).length : Int) - 1)))
    ∧ resA.idx = 0
    ∧ resB.idx = (["a", "b"] : List String).length - 1 :=
  ⟨(c3_navigation_clamps envEmptyFs ["a", "b"] (List.cons_ne_nil "a" ["b"])).1 99 resB rfl,
   (c3_navigation_clamps envEmptyFs ["a", "b"] (List.cons_ne_nil "a" ["b"])).2.1 resA rfl,
   (c3_navigation_clamps envEmptyFs ["a", "b"] (List.cons_ne_nil "a" ["b"])).2.2 resB rfl⟩

/-- Claim C4: on the empty catalog every navigation entry point returns the
degenerate tuple (absent images, empty table, empty mapping, absent id,
position 0, count string `0/0`) without failing. -/
theorem c4_empty_catalog_degenerate (env : Env) (index : Int) (val : String) :
    load_sample env [] index =
      Except.ok ⟨none, none, ⟨[], []⟩, Json.obj [], none, 0, "0/0"⟩
    ∧ on_prev env [] index =
      Except.ok ⟨none, none, ⟨[], []⟩, Json.obj [], none, 0, "0/0"⟩
    ∧ on_next env [] index =
      Except.ok ⟨none, none, ⟨[], []⟩, Json.obj [], none, 0, "0/0"⟩
    ∧ on_select env [] val =
      Except.ok ⟨none, none, ⟨[], []⟩, Json.obj [], none, 0, "0/0"⟩ :=
  ⟨rfl, rfl, rfl, by simp [on_select, load_sample]⟩

/-- Claim C8: selecting an id absent from the catalog returns exactly the
result of selecting index 0, and selecting a present id jumps to its (first)
index, whose entry is the id itself. -/
theorem c8_select_by_id (env : Env) (samples : List String) (val : String) :
    (val ∉ samples → on_select env samples val = load_sample env samples 0)
    ∧ (val ∈ samples →
        on_select env samples val = load_sample env samples (samples.indexOf val : Int)
        ∧ ∀ r : LoadResult, on_select env samples val = Except.ok r →
            r.idx = samples.indexOf val ∧ r.sample_id = some val) := by
  constructor
  · intro hnm
    unfold on_select
    rw [if_neg hnm]
  · intro hm
    have hsel : on_select env samples val =
        load_sample env samples (samples.indexOf val : Int) := by
      unfold on_select
      rw [if_pos hm]
    refine ⟨hsel, fun r hr => ?_⟩
    rw [hsel] at hr
    have hne : samples ≠ [] := by
      rintro rfl
      exact absurd hm (List.not_mem_nil val)
    have hlt : samples.indexOf val < samples.length := List.indexOf_lt_length.mpr hm
    have h1 := (load_sample_ok hne hr).1
    have h2 := (load_sample_ok hne hr).2.1
    rw [clampIndex_coe hlt] at h1 h2
    refine ⟨h1, ?_⟩
    rw [h2]
    rw [List.getD_eq_getElem?_getD, List.getElem?_eq_getElem hlt]
    simp [List.getElem_indexOf hlt]

/-- Witness for C8 on the catalog `["a", "b"]` in `envEmptyFs`: the unknown
id `z` falls back to index 0, the known id `b` jumps to its index 1. -/
theorem c8_witness :
    on_select envEmptyFs ["a", "b"] "z" = load_sample envEmptyFs ["a", "b"] 0
    ∧ on_select envEmptyFs ["a", "b"] "b" =
        load_sample envEmptyFs ["a", "b"] ((["a", "b"] : List String).indexOf "b" : Int)
    ∧ resB.idx = (["a", "b"] : List String).indexOf "b"
    ∧ resB.sample_id = some "b" :=
  ⟨(c8_select_by_id envEmptyFs ["a", "b"] "z").1 (by decide),
   ((c8_select_by_id envEmptyFs ["a", "b"] "b").2 (by decide)).1,
   (((c8_select_by_id envEmptyFs ["a", "b"] "b").2 (by decide)).2 resB rfl).1,
   (((c8_select_by_id envEmptyFs ["a", "b"] "b").2 (by decide)).2 resB rfl).2⟩

/-- Claim C9: in the interior of a non-empty catalog, `next` from position
`p` followed by `previous` from the returned position reproduces exactly the
result of loading position `p`; the returned position of `next` is `p + 1`. -/
theorem c9_next_prev_roundtrip (env : Env) (samples : List String) (p : Nat) (r : LoadResult)
    (hp : p + 1 < samples.length) (hnext : on_next env samples (p : Int) = Except.ok r) :
    on_prev env samples (r.idx : Int) = load_sample env samples (p : Int)
    ∧ r.idx = p + 1 := by
  have hne : samples ≠ [] := by
    intro hnil
    rw [hnil] at hp
    simp at hp
  unfold on_next at hnext
  have hidx := (load_sample_ok hne hnext).1
  have hcast : ((p : Int) + 1) = ((p + 1 : Nat) : Int) := by push_cast; ring
  rw [hcast, clampIndex_coe hp] at hidx
  refine ⟨?_, hidx⟩
  unfold on_prev
  rw [hidx]
  congr 1
  push_cast
  ring

/-- Witness for C9 on the catalog `["a", "b"]` in `envEmptyFs` at interior
position 0: `next` reaches position 1 and `previous` returns to the record
of position 0. -/
theorem c9_witness :
    on_prev envEmptyFs ["a", "b"] (resB.idx : Int) =
      load_sample envEmptyFs ["a", "b"] ((0 : Nat) : Int)
    ∧ resB.idx = 0 + 1 :=
  c9_next_prev_roundtrip envEmptyFs ["a", "b"] 0 resB (by decide) rfl

/-- Claim C10: on a non-empty catalog every successful navigation result
carries the catalog entry at its returned index as its resolved id (hence a
catalog member) and the count string `str(idx+1) ++ " / " ++ str(N)`. -/
theorem c10_result_invariants (env : Env) (samples : List String) (index : Int)
    (r : LoadResult) (h : samples ≠ []) (hr : load_sample env samples index = Except.ok r) :
    ∃ hlt : r.idx < samples.length,
      r.sample_id = some (samples.get ⟨r.idx, hlt⟩)
      ∧ samples.get ⟨r.idx, hlt⟩ ∈ samples
      ∧ r.count_str = toString (r.idx + 1) ++ " / " ++ toString samples.length := by
  obtain ⟨h1, h2, hdf, hjs, h5⟩ := load_sample_ok h hr
  have hpos : 0 < samples.length := List.length_pos.mpr h
  have hclt : clampIndex index samples.length < samples.length := clampIndex_lt index hpos
  have hlt : r.idx < samples.length := by omega
  refine ⟨hlt, ?_, List.get_mem _ _ _, by rw [h5, h1]⟩
  rw [h2]
  have hget : samples.get ⟨r.idx, hlt⟩ = samples.getD (clampIndex index samples.length) "" := by
    rw [List.getD_eq_getElem?_getD, List.getElem?_eq_getElem hclt]
    simp only [Option.getD_some, List.get_eq_getElem]
    congr 1
  rw [hget]

/-- Witness for C10 on the catalog `["a", "b"]` in `envEmptyFs` with the
out-of-range request 99 (clamped to 1). -/
theorem c10_witness :
    ∃ hlt : resB.idx < (["a", "b"] : List String).length,
      resB.sample_id = some ((["a", "b"] : List String).get ⟨resB.idx, hlt⟩)
      ∧ (["a", "b"] : List String).get ⟨resB.idx, hlt⟩ ∈ (["a", "b"] : List String)
      ∧ resB.count_str =
          toString (resB.idx + 1) ++ " / " ++ toString (["a", "b"] : List String).length :=
  c10_result_invariants envEmptyFs ["a", "b"] 99 resB (List.cons_ne_nil "a" ["b"]) rfl

/-- Claim C1, counterexample: with `foo.jpg` and `foo.png` both on disk the
catalog holds the id `foo` twice — `get_all_samples` never deduplicates, so
"exactly one entry" is false. -/
theorem c1_counterexample :
    get_all_samples dupExtTree = ["foo", "foo"]
    ∧ (get_all_samples dupExtTree).count "foo" = 2 := ⟨rfl, rfl⟩

/-- Claim C1 (amended): the catalog contains one entry per matching
primary-image file — the number of occurrences of an id equals the number of
files that strip to it — so colliding extensions for one base name produce
one entry each, not a single merged entry. -/
theorem c1_catalog_entry_per_file (tree : List FsEntry) (s : String) :
    (get_all_samples tree).count s =
      tree.countP (fun e => isImageEntry e && (sampleIdOf e == s)) := by
  rw [get_all_samples, (perm_pySorted (collectSamples tree)).count_eq,
    count_collectSamples]

/-- Claim C5, counterexample: the figure files `a/x.jpeg` and `a/x.png`
strip to the same id, so the returned sequence is not the duplicate-free
sorted sequence of the id set (the unrelated `a/notes.txt` and the
directory entry are correctly excluded). -/
theorem c5_counterexample :
    get_all_samples mixedTree = ["a/x", "a/x"]
    ∧ ¬ (get_all_samples mixedTree).Nodup :=
  ⟨rfl, by decide⟩

/-- Claim C5 (amended): `build` returns the identifiers of exactly the files
under the root whose extension lower-cases to `.jpg`, `.jpeg` or `.png`
(unrelated files excluded), sorted ascending in code-point lexicographic
order, with one occurrence per matching file (not deduplicated). -/
theorem c5_build_sorted_exact (tree : List FsEntry) :
    (get_all_samples tree).Pairwise StrLe
    ∧ List.Perm (get_all_samples tree) (collectSamples tree)
    ∧ (∀ s, s ∈ get_all_samples tree ↔
        ∃ e, e ∈ tree ∧ isImageEntry e = true ∧ sampleIdOf e = s) := by
  refine ⟨pairwise_pySorted _, perm_pySorted _, fun s => ?_⟩
  rw [get_all_samples, (perm_pySorted (collectSamples tree)).mem_iff]
  exact mem_collectSamples
